import Mathlib

/-!
Shallow embedding of the HD44780 LCD driver (src/Core/Src/LCD.c and
src/Core/Inc/LCD.h) and verification of its specification.

GPIO pin state is modelled explicitly; machine integers are `Nat` with
masking where the C code masks.  The microsecond/millisecond delay calls
and pin operations are recorded in an event trace so that timing-ordering
properties can be stated.  The busy-flag input seen by `LCD_IsReady` is an
oracle `inp : Nat → Nat` giving the raw 16-bit input-port reading at the
k-th sample.
-/

/-- API constants from src/Core/Inc/LCD.h. -/
def LCD_DISPLAY_8_BIT_INIT : Nat := 0x03

def LCD_DISPLAY_4_BIT_INIT : Nat := 0x02

def LCD_DISPLAY_CURSOR_OFF : Nat := 0x08

def LCD_CLEAR_DISPLAY : Nat := 0x01

def LCD_CURSOR_AUTO_INCR_ON : Nat := 0x06

def LCD_DISPLAY_CURSOR_ON : Nat := 0x0E

def LCD_DISPLAY_2_LINES_5x10 : Nat := 0x2C

def LCD_DISPLAY_ON_CURSOR_OFF : Nat := 0x0C

def LCD_RESET_CURSOR_POSITION : Nat := 0x03

def LCD_NIBBLE_SHIFT : Nat := 0x04

def LCD_NIBBLE_MASK : Nat := 0x0F

def LCD_STM32_NIBBLE_SHIFT : Nat := 0

def LCD_STM32_NIBBLE_MASK : Nat := 0x000F

def LCD_ROW_0_START : Nat := 0x80

def LCD_ROW_1_START : Nat := 0xC0

def LCD_ROW_2_START : Nat := 0x94

def LCD_ROW_3_START : Nat := 0xD4

def LCD_LONGEST_CMD_US : Nat := 0x651

def LCD_WAIT_CYCLE : Nat := 0x10

def LCD_READY_DELAY : Nat := LCD_LONGEST_CMD_US * 4 / LCD_WAIT_CYCLE

def LCD_READY_BIT : Nat := 0x08

/-- The C expression `~(uint16_t) m`: 16-bit bitwise complement. -/
def not16 (m : Nat) : Nat := 0xFFFF ^^^ m

/-- GPIO state touched by the driver: the 16-bit output latch of the data
port, the three control lines (RS, R/nW, E), the direction of each of the
four data pins DB4..DB7 (`true` = drive output, `false` = floating input),
and the push-pull output-type flag. -/
structure Gpio where
  port : Nat
  rs : Bool
  rw : Bool
  e : Bool
  db4Out : Bool
  db5Out : Bool
  db6Out : Bool
  db7Out : Bool
  pp : Bool
deriving DecidableEq, Repr

/-- Pin-level events emitted by the low-level bus functions, in program
order: control-line edges, output-port writes, input-port samples, pin-mode
changes and the delay calls. -/
inductive Ev where
  | setRS
  | clearRS
  | setRW
  | clearRW
  | setE
  | clearE
  | portW (v : Nat)
  | sample (v : Nat)
  | dUs (n : Nat)
  | modeIn (pin : Nat)
  | modeOut (pin : Nat)
  | outPP
deriving DecidableEq, Repr

/-- LCD_WrDatNib from LCD.c (lines 259-285): RS high, RW low, 2 µs settle
delay, read-modify-write of the data nibble onto the port, then an Enable
strobe with a 1 µs dwell. -/
def LCD_WrDatNib (s : Gpio) (nibble : Nat) : Gpio × List Ev :=
  let s1 : Gpio := { s with rs := true }
  let s2 : Gpio := { s1 with rw := false }
  let d0 := s2.port
  let d1 := d0 &&& not16 LCD_STM32_NIBBLE_MASK
  let d2 := d1 ||| ((nibble <<< LCD_STM32_NIBBLE_SHIFT) &&& LCD_STM32_NIBBLE_MASK)
  let s3 : Gpio := { s2 with port := d2 }
  let s4 : Gpio := { s3 with e := true }
  let s5 : Gpio := { s4 with e := false }
  (s5, [Ev.setRS, Ev.clearRW, Ev.dUs 2, Ev.portW d2, Ev.setE, Ev.dUs 1, Ev.clearE])

/-- LCD_WrCntrlNib from LCD.c (lines 302-323): RS and RW both low (one
LL call), read-modify-write of the nibble (no delay call before it), then
an Enable strobe with a 1 µs dwell. -/
def LCD_WrCntrlNib (s : Gpio) (nibble : Nat) : Gpio × List Ev :=
  let s1 : Gpio := { s with rs := false, rw := false }
  let d0 := s1.port
  let d1 := d0 &&& not16 LCD_STM32_NIBBLE_MASK
  let d2 := d1 ||| ((nibble <<< LCD_STM32_NIBBLE_SHIFT) &&& LCD_STM32_NIBBLE_MASK)
  let s3 : Gpio := { s1 with port := d2 }
  let s4 : Gpio := { s3 with e := true }
  let s5 : Gpio := { s4 with e := false }
  (s5, [Ev.clearRS, Ev.clearRW, Ev.portW d2, Ev.setE, Ev.dUs 1, Ev.clearE])

/-- One iteration of the do-while polling loop in LCD_IsReady (LCD.c lines
606-647): strobe E, sample the input port, drop E, mask out the ready bit,
issue the second strobe, and delay 10 µs when the masked value is zero.
Returns the state, the events and the masked `value`. -/
def isReadyBody (inp : Nat → Nat) (k : Nat) (s : Gpio) : Gpio × List Ev × Nat :=
  let s1 : Gpio := { s with e := true }
  let v := inp k
  let s2 : Gpio := { s1 with e := false }
  let value := v &&& (LCD_READY_BIT <<< LCD_STM32_NIBBLE_SHIFT)
  let s3 : Gpio := { s2 with e := true }
  let s4 : Gpio := { s3 with e := false }
  (s4,
   [Ev.dUs 0, Ev.setE, Ev.dUs 1, Ev.sample v, Ev.clearE, Ev.dUs 0, Ev.setE, Ev.dUs 1,
     Ev.clearE] ++ (if value = 0 then [Ev.dUs 10] else []),
   value)

/-- The do-while loop of LCD_IsReady.  The fuel argument is the `timeout`
counter (entered with `LCD_READY_DELAY`); one body execution decrements it
and the loop repeats while `value != 0 && timeout > 0`.  `k` indexes the
busy-flag oracle. -/
def isReadyLoop (inp : Nat → Nat) (s : Gpio) (k : Nat) : Nat → Gpio × List Ev
  | 0 => (s, [])
  | t + 1 =>
    let r := isReadyBody inp k s
    if r.2.2 ≠ 0 ∧ 0 < t then
      let r2 := isReadyLoop inp r.1 (k + 1) t
      (r2.1, r.2.1 ++ r2.2)
    else
      (r.1, r.2.1)

/-- LCD_IsReady from LCD.c (lines 582-664): clear the data nibble, float
the four data pins, RS low, RW high (read), run the polling loop with
budget LCD_READY_DELAY, then restore write mode: RW low, clear the data
nibble, drive the four data pins as push-pull outputs. -/
def LCD_IsReady (inp : Nat → Nat) (s : Gpio) : Gpio × List Ev :=
  let p0 := s.port &&& not16 LCD_STM32_NIBBLE_MASK
  let s1 : Gpio := { s with port := p0 }
  let s2 : Gpio := { s1 with db4Out := false, db5Out := false, db6Out := false,
                             db7Out := false }
  let s3 : Gpio := { s2 with rs := false }
  let s4 : Gpio := { s3 with rw := true }
  let r := isReadyLoop inp s4 0 LCD_READY_DELAY
  let s5 : Gpio := { r.1 with rw := false }
  let p1 := s5.port &&& not16 LCD_STM32_NIBBLE_MASK
  let s6 : Gpio := { s5 with port := p1 }
  let s7 : Gpio := { s6 with db4Out := true, db5Out := true, db6Out := true,
                             db7Out := true }
  let s8 : Gpio := { s7 with pp := true }
  (s8,
   ([Ev.portW p0, Ev.modeIn 4, Ev.modeIn 5, Ev.modeIn 6, Ev.modeIn 7, Ev.clearRS,
      Ev.setRW] ++ r.2) ++
     [Ev.clearRW, Ev.portW p1, Ev.modeOut 4, Ev.modeOut 5, Ev.modeOut 6, Ev.modeOut 7,
      Ev.outPP])

/-- Call-level events of the byte-level layer: one entry per statement of
the C functions (a readiness poll, a control or data nibble transaction, a
millisecond delay). -/
inductive Call where
  | isReadyC
  | ctrlNibC (n : Nat)
  | datNibC (n : Nat)
  | dMsC (n : Nat)
deriving DecidableEq, Repr

/-- LCD_WriteData from LCD.c (lines 193-208): poll readiness once, then
write the high nibble and the low nibble of the byte in data mode. -/
def LCD_WriteData (inp : Nat → Nat) (s : Gpio) (dByte : Nat) : Gpio × List Call :=
  let s1 := (LCD_IsReady inp s).1
  let n1 := dByte >>> LCD_NIBBLE_SHIFT
  let s2 := (LCD_WrDatNib s1 n1).1
  let n2 := dByte &&& LCD_NIBBLE_MASK
  let s3 := (LCD_WrDatNib s2 n2).1
  (s3, [Call.isReadyC, Call.datNibC n1, Call.datNibC n2])

/-- LCD_WriteControl from LCD.c (lines 225-240): poll readiness once, then
write the high nibble and the low nibble of the byte in command mode. -/
def LCD_WriteControl (inp : Nat → Nat) (s : Gpio) (cByte : Nat) : Gpio × List Call :=
  let s1 := (LCD_IsReady inp s).1
  let n1 := cByte >>> LCD_NIBBLE_SHIFT
  let s2 := (LCD_WrCntrlNib s1 n1).1
  let n2 := cByte &&& LCD_NIBBLE_MASK
  let s3 := (LCD_WrCntrlNib s2 n2).1
  (s3, [Call.isReadyC, Call.ctrlNibC n1, Call.ctrlNibC n2])

/-- LCD_Position from LCD.c (lines 345-365): switch on the row, issuing a
single command byte for rows 0-3 and doing nothing in the default case.
The addition `LCD_ROW_i_START + column` is reduced mod 256 because
LCD_WriteControl takes a uint8_t parameter. -/
def LCD_Position (inp : Nat → Nat) (s : Gpio) (row column : Nat) : Gpio × List Call :=
  match row with
  | 0 => LCD_WriteControl inp s ((LCD_ROW_0_START + column) % 256)
  | 1 => LCD_WriteControl inp s ((LCD_ROW_1_START + column) % 256)
  | 2 => LCD_WriteControl inp s ((LCD_ROW_2_START + column) % 256)
  | 3 => LCD_WriteControl inp s ((LCD_ROW_3_START + column) % 256)
  | _ + 4 => (s, [])

/-- LCD_Init from LCD.c (lines 84-109): the timed 8-bit/4-bit bootstrap
nibbles followed by the seven command bytes and a final 5 ms delay.  The
custom-font block is compiled out (LCD_CUSTOM_CHAR_SET is not defined). -/
def LCD_Init (inp : Nat → Nat) (s : Gpio) : Gpio × List Call :=
  let s1 := (LCD_WrCntrlNib s LCD_DISPLAY_8_BIT_INIT).1
  let s2 := (LCD_WrCntrlNib s1 LCD_DISPLAY_8_BIT_INIT).1
  let s3 := (LCD_WrCntrlNib s2 LCD_DISPLAY_8_BIT_INIT).1
  let s4 := (LCD_WrCntrlNib s3 LCD_DISPLAY_4_BIT_INIT).1
  let r5 := LCD_WriteControl inp s4 LCD_CURSOR_AUTO_INCR_ON
  let r6 := LCD_WriteControl inp r5.1 LCD_DISPLAY_CURSOR_ON
  let r7 := LCD_WriteControl inp r6.1 LCD_DISPLAY_2_LINES_5x10
  let r8 := LCD_WriteControl inp r7.1 LCD_DISPLAY_CURSOR_OFF
  let r9 := LCD_WriteControl inp r8.1 LCD_CLEAR_DISPLAY
  let r10 := LCD_WriteControl inp r9.1 LCD_DISPLAY_ON_CURSOR_OFF
  let r11 := LCD_WriteControl inp r10.1 LCD_RESET_CURSOR_POSITION
  (r11.1,
   [Call.dMsC 40, Call.ctrlNibC LCD_DISPLAY_8_BIT_INIT, Call.dMsC 5,
     Call.ctrlNibC LCD_DISPLAY_8_BIT_INIT, Call.dMsC 15,
     Call.ctrlNibC LCD_DISPLAY_8_BIT_INIT, Call.dMsC 1,
     Call.ctrlNibC LCD_DISPLAY_4_BIT_INIT, Call.dMsC 5] ++
     r5.2 ++ r6.2 ++ r7.2 ++ r8.2 ++ r9.2 ++ r10.2 ++ r11.2 ++ [Call.dMsC 5])

/-- Driver-level state: the GPIO bank plus the two global flags
LCD_initVar and LCD_enableState from LCD.c (lines 57-59). -/
structure Sys where
  gpio : Gpio
  initVar : Nat
  enableState : Nat
deriving DecidableEq, Repr

/-- LCD_Enable from LCD.c (lines 133-137): LCD_DisplayOn() — which the
header defines as LCD_WriteControl(LCD_DISPLAY_ON_CURSOR_OFF) — then set
LCD_enableState to 1. -/
def LCD_Enable (inp : Nat → Nat) (y : Sys) : Sys × List Call :=
  let r := LCD_WriteControl inp y.gpio LCD_DISPLAY_ON_CURSOR_OFF
  ({ y with gpio := r.1, enableState := 1 }, r.2)

/-- LCD_Start from LCD.c (lines 165-176): run LCD_Init and set LCD_initVar
only when LCD_initVar is 0, then always LCD_Enable. -/
def LCD_Start (inp : Nat → Nat) (y : Sys) : Sys × List Call :=
  if y.initVar = 0 then
    let r0 := LCD_Init inp y.gpio
    let y1 : Sys := { y with gpio := r0.1, initVar := 1 }
    let r1 := LCD_Enable inp y1
    (r1.1, r0.2 ++ r1.2)
  else
    LCD_Enable inp y

/-- Observation: is a pin-level event a busy-flag sample? -/
def isSampleEv : Ev → Bool
  | Ev.sample _ => true
  | _ => false

/-- Observation: number of busy-flag samples (= poll iterations) in a
pin-level trace. -/
def sampleCount (tr : List Ev) : Nat := tr.countP isSampleEv

/-- Observation: is a pin-level event a data-port write? -/
def isPortWEv : Ev → Bool
  | Ev.portW _ => true
  | _ => false

/-- Observation: the microsecond delays occurring strictly before the
first data-port write of a trace. -/
def delaysBeforePortW (tr : List Ev) : List Nat :=
  (tr.takeWhile fun ev => !(isPortWEv ev)).filterMap fun ev =>
    match ev with
    | Ev.dUs n => some n
    | _ => none

/-- Observation: the events strictly between the first and the second
busy-flag samples of a trace. -/
def betweenSamples (tr : List Ev) : List Ev :=
  (((tr.dropWhile fun ev => !(isSampleEv ev)).drop 1).takeWhile fun ev =>
    !(isSampleEv ev))

/-- Observation: the events strictly after the last busy-flag sample. -/
def afterLastSample (tr : List Ev) : List Ev :=
  ((tr.reverse.takeWhile fun ev => !(isSampleEv ev))).reverse

/-- Observation: reconstruct the command bytes of a call-level trace: each
readiness poll followed by two command-mode nibble transactions is one
byte-level command transaction. -/
def cmdBytes : List Call → List Nat
  | Call.isReadyC :: Call.ctrlNibC a :: Call.ctrlNibC b :: rest =>
      (a * 2 ^ LCD_NIBBLE_SHIFT + b) :: cmdBytes rest
  | _ :: rest => cmdBytes rest
  | [] => []

/-- Clearing the data nibble with the complemented mask leaves the masked
field at zero. -/
lemma clearNib_and_mask (x : Nat) :
    (x &&& not16 LCD_STM32_NIBBLE_MASK) &&& LCD_STM32_NIBBLE_MASK = 0 := by
  rw [Nat.and_assoc]
  have h : not16 LCD_STM32_NIBBLE_MASK &&& LCD_STM32_NIBBLE_MASK = 0 := by decide
  rw [h, Nat.and_zero]

/-- The C nibble extraction `b >> LCD_NIBBLE_SHIFT` is division by 16. -/
lemma shiftRight_nibble_eq_div (b : Nat) : b >>> LCD_NIBBLE_SHIFT = b / 2 ^ 4 :=
  Nat.shiftRight_eq_div_pow b 4

/-- The C nibble extraction `b & LCD_NIBBLE_MASK` is reduction mod 16. -/
lemma and_nibble_mask_eq_mod (b : Nat) : b &&& LCD_NIBBLE_MASK = b % 2 ^ 4 :=
  Nat.and_pow_two_sub_one_eq_mod b 4

/-- C2: On every exit path of LCD_IsReady — whether the busy bit was seen
clear or the attempt budget ran out — the function returns with R/W low
(write mode), all four data pins driven as outputs, and the data field of
the port cleared to 0. -/
theorem lcd_isReady_exit_state (inp : Nat → Nat) (s : Gpio) :
    (LCD_IsReady inp s).1.rw = false ∧
    (LCD_IsReady inp s).1.db4Out = true ∧
    (LCD_IsReady inp s).1.db5Out = true ∧
    (LCD_IsReady inp s).1.db6Out = true ∧
    (LCD_IsReady inp s).1.db7Out = true ∧
    (LCD_IsReady inp s).1.port &&& LCD_STM32_NIBBLE_MASK = 0 :=
  ⟨rfl, rfl, rfl, rfl, rfl, clearNib_and_mask _⟩

/-- C4: For every byte and both modes, the byte-level write polls
readiness exactly once, first, and then performs exactly the two nibble
transactions high nibble (b / 16) followed by low nibble (b % 16), with no
readiness poll in between. -/
theorem lcd_writeByte_decomposition (inp : Nat → Nat) (s : Gpio) (b : Nat) :
    (LCD_WriteData inp s b).2 =
      [Call.isReadyC, Call.datNibC (b / 2 ^ 4), Call.datNibC (b % 2 ^ 4)] ∧
    (LCD_WriteControl inp s b).2 =
      [Call.isReadyC, Call.ctrlNibC (b / 2 ^ 4), Call.ctrlNibC (b % 2 ^ 4)] := by
  constructor <;>
    simp [LCD_WriteData, LCD_WriteControl, shiftRight_nibble_eq_div,
      and_nibble_mask_eq_mod]

/-- C5 counterexample: in command mode (LCD_WrCntrlNib) no delay of 2 µs
or more occurs between the RS/RW setup step and the data-field write, so
the claim that both modes have such a delay fails on a concrete call. -/
theorem lcd_ctrlNib_no_setup_delay_cex :
    ¬ ∃ d ∈ delaysBeforePortW
        (LCD_WrCntrlNib (Gpio.mk 0 false false false true true true true false) 5).2,
      2 ≤ d := by decide

/-- C5 amended: a 2 µs delay separates the RS/RW setup from the data-field
write and strobe in data mode (LCD_WrDatNib), while in command mode
(LCD_WrCntrlNib) no delay call at all separates them. -/
theorem lcd_nibble_setup_delay_amended (s : Gpio) (n : Nat) :
    delaysBeforePortW (LCD_WrDatNib s n).2 = [2] ∧
    delaysBeforePortW (LCD_WrCntrlNib s n).2 = [] :=
  ⟨rfl, rfl⟩

/-- Bits of the STM32 nibble mask: exactly the low four bits. -/
lemma testBit_nibble_mask (i : Nat) :
    Nat.testBit LCD_STM32_NIBBLE_MASK i = decide (i < 4) := by
  have h : LCD_STM32_NIBBLE_MASK = 2 ^ 4 - 1 := rfl
  rw [h, Nat.testBit_two_pow_sub_one]

/-- Bits of the 16-bit complement of the nibble mask: bits 4 to 15. -/
lemma testBit_not16_mask (i : Nat) :
    Nat.testBit (not16 LCD_STM32_NIBBLE_MASK) i =
      (decide (4 ≤ i) && decide (i < 16)) := by
  by_cases h : i < 16
  · interval_cases i <;> decide
  · have h16 : 16 ≤ i := le_of_not_lt h
    have hlt : not16 LCD_STM32_NIBBLE_MASK < 2 ^ i := by
      calc not16 LCD_STM32_NIBBLE_MASK < 2 ^ 16 := by decide
        _ ≤ 2 ^ i := Nat.pow_le_pow_right (by norm_num) h16
    rw [Nat.testBit_lt_two_pow hlt]
    simp [h]

/-- Bit-level characterisation of the read-modify-write port update used
by both nibble-write functions. -/
lemma writeField_testBit (p nib i : Nat) :
    Nat.testBit ((p &&& not16 LCD_STM32_NIBBLE_MASK) |||
        ((nib <<< LCD_STM32_NIBBLE_SHIFT) &&& LCD_STM32_NIBBLE_MASK)) i =
      if i < 4 then Nat.testBit nib i
      else (Nat.testBit p i && decide (i < 16)) := by
  have hs : nib <<< LCD_STM32_NIBBLE_SHIFT = nib := rfl
  rw [Nat.testBit_or, Nat.testBit_and, Nat.testBit_and, testBit_not16_mask, hs,
    testBit_nibble_mask]
  by_cases h4 : i < 4
  · have h16 : i < 16 := by omega
    have hge : ¬ 4 ≤ i := by omega
    simp [h4, h16, hge]
  · by_cases h16 : i < 16 <;> simp [h4, h16, Nat.le_of_not_lt]

/-- The masked field of the updated port equals the (shifted) nibble. -/
lemma writeField_low (p nib : Nat) (hn : nib < 2 ^ 4) :
    ((p &&& not16 LCD_STM32_NIBBLE_MASK) |||
        ((nib <<< LCD_STM32_NIBBLE_SHIFT) &&& LCD_STM32_NIBBLE_MASK)) &&&
      LCD_STM32_NIBBLE_MASK = nib <<< LCD_STM32_NIBBLE_SHIFT := by
  apply Nat.eq_of_testBit_eq
  intro i
  rw [Nat.testBit_and, writeField_testBit, testBit_nibble_mask]
  have hs : nib <<< LCD_STM32_NIBBLE_SHIFT = nib := rfl
  rw [hs]
  by_cases h4 : i < 4
  · simp [h4]
  · have : Nat.testBit nib i = false :=
      Nat.testBit_lt_two_pow
        (lt_of_lt_of_le hn (Nat.pow_le_pow_right (by norm_num) (Nat.le_of_not_lt h4)))
    simp [h4, this]

/-- Bits outside the mask are unchanged by the port update. -/
lemma writeField_frame (p nib i : Nat) (hp : p < 2 ^ 16)
    (hi : Nat.testBit LCD_STM32_NIBBLE_MASK i = false) :
    Nat.testBit ((p &&& not16 LCD_STM32_NIBBLE_MASK) |||
        ((nib <<< LCD_STM32_NIBBLE_SHIFT) &&& LCD_STM32_NIBBLE_MASK)) i =
      Nat.testBit p i := by
  rw [testBit_nibble_mask] at hi
  have h4 : ¬ i < 4 := by simpa using hi
  rw [writeField_testBit, if_neg h4]
  by_cases h16 : i < 16
  · simp [h16]
  · have : Nat.testBit p i = false :=
      Nat.testBit_lt_two_pow
        (lt_of_lt_of_le hp (Nat.pow_le_pow_right (by norm_num) (Nat.le_of_not_lt h16)))
    simp [h16, this]

/-- The port after LCD_WrDatNib is the read-modify-write expression. -/
lemma wrDatNib_port (s : Gpio) (nib : Nat) :
    (LCD_WrDatNib s nib).1.port =
      (s.port &&& not16 LCD_STM32_NIBBLE_MASK) |||
        ((nib <<< LCD_STM32_NIBBLE_SHIFT) &&& LCD_STM32_NIBBLE_MASK) := rfl

/-- The port after LCD_WrCntrlNib is the read-modify-write expression. -/
lemma wrCntrlNib_port (s : Gpio) (nib : Nat) :
    (LCD_WrCntrlNib s nib).1.port =
      (s.port &&& not16 LCD_STM32_NIBBLE_MASK) |||
        ((nib <<< LCD_STM32_NIBBLE_SHIFT) &&& LCD_STM32_NIBBLE_MASK) := rfl

/-- C7: both nibble-write functions update the port by read-modify-write:
the bits selected by LCD_STM32_NIBBLE_MASK become the nibble shifted by
LCD_STM32_NIBBLE_SHIFT, and every bit of the port outside the mask keeps
its previous value. -/
theorem lcd_writeDataField_rmw (s : Gpio) (nib : Nat) (hp : s.port < 2 ^ 16)
    (hn : nib < 2 ^ 4) :
    ((LCD_WrDatNib s nib).1.port &&& LCD_STM32_NIBBLE_MASK =
        nib <<< LCD_STM32_NIBBLE_SHIFT) ∧
    (∀ i, Nat.testBit LCD_STM32_NIBBLE_MASK i = false →
        Nat.testBit (LCD_WrDatNib s nib).1.port i = Nat.testBit s.port i) ∧
    ((LCD_WrCntrlNib s nib).1.port &&& LCD_STM32_NIBBLE_MASK =
        nib <<< LCD_STM32_NIBBLE_SHIFT) ∧
    (∀ i, Nat.testBit LCD_STM32_NIBBLE_MASK i = false →
        Nat.testBit (LCD_WrCntrlNib s nib).1.port i = Nat.testBit s.port i) := by
  refine ⟨?_, ?_, ?_, ?_⟩
  · rw [wrDatNib_port]; exact writeField_low s.port nib hn
  · intro i hi; rw [wrDatNib_port]; exact writeField_frame s.port nib i hp hi
  · rw [wrCntrlNib_port]; exact writeField_low s.port nib hn
  · intro i hi; rw [wrCntrlNib_port]; exact writeField_frame s.port nib i hp hi

/-- C7 witness: the theorem instantiated at port 0xABCD and nibble 5. -/
theorem lcd_writeDataField_rmw_witness :
    (Gpio.mk 0xABCD false false false true true true true false).port < 2 ^ 16 ∧
    (5 : Nat) < 2 ^ 4 ∧
    ((LCD_WrDatNib (Gpio.mk 0xABCD false false false true true true true false) 5).1.port
        &&& LCD_STM32_NIBBLE_MASK = 5 <<< LCD_STM32_NIBBLE_SHIFT) :=
  ⟨by decide, by decide,
    (lcd_writeDataField_rmw (Gpio.mk 0xABCD false false false true true true true false) 5
      (by decide) (by decide)).1⟩

/-- A byte-level command transaction reassembles to its byte: the call
trace of LCD_WriteControl contributes exactly one command byte. -/
lemma cmdBytes_writeControl (inp : Nat → Nat) (s : Gpio) (b : Nat) :
    cmdBytes (LCD_WriteControl inp s b).2 = [b] := by
  have h1 : (LCD_WriteControl inp s b).2 =
      [Call.isReadyC, Call.ctrlNibC (b >>> LCD_NIBBLE_SHIFT),
        Call.ctrlNibC (b &&& LCD_NIBBLE_MASK)] := rfl
  rw [h1]
  simp only [cmdBytes, shiftRight_nibble_eq_div, and_nibble_mask_eq_mod]
  have h2 : b / 2 ^ 4 * 2 ^ LCD_NIBBLE_SHIFT + b % 2 ^ 4 = b := by
    have hsh : (2 : Nat) ^ LCD_NIBBLE_SHIFT = 16 := rfl
    rw [hsh]
    omega
  rw [h2]

/-- C8: LCD_Position with row 0..3 issues exactly one command byte, the
row base address {0x80, 0xC0, 0x94, 0xD4} plus the column in 8-bit
arithmetic; any other row issues no call at all and leaves the GPIO state
untouched. -/
theorem lcd_position_rows (inp : Nat → Nat) (s : Gpio) (row column : Nat)
    (hc : column < 256) :
    (row < 4 →
      cmdBytes (LCD_Position inp s row column).2 =
        [([LCD_ROW_0_START, LCD_ROW_1_START, LCD_ROW_2_START, LCD_ROW_3_START].getD
            row 0 + column) % 256]) ∧
    (4 ≤ row →
      (LCD_Position inp s row column).2 = [] ∧
      (LCD_Position inp s row column).1 = s) := by
  constructor
  · intro h
    interval_cases row <;>
      simp [LCD_Position, cmdBytes_writeControl, List.getD]
  · intro h
    match row, h with
    | n + 4, _ => exact ⟨rfl, rfl⟩

/-- C8 witness: row 1, column 7 issues command byte 0xC7; row 9 is a
no-op. -/
theorem lcd_position_rows_witness :
    (7 : Nat) < 256 ∧
    cmdBytes (LCD_Position (fun _ => 0)
        (Gpio.mk 0 false false false true true true true false) 1 7).2 = [0xC7] ∧
    (LCD_Position (fun _ => 0)
        (Gpio.mk 0 false false false true true true true false) 9 7).2 = [] := by
  refine ⟨by decide, ?_, ?_⟩
  · have h := (lcd_position_rows (fun _ => 0)
      (Gpio.mk 0 false false false true true true true false) 1 7 (by decide)).1
      (by decide)
    simpa using h
  · exact ((lcd_position_rows (fun _ => 0)
      (Gpio.mk 0 false false false true true true true false) 9 7 (by decide)).2
      (by decide)).1

/-- The masked value computed by one loop body is the oracle reading ANDed
with the ready-bit mask. -/
lemma isReadyBody_value (inp : Nat → Nat) (k : Nat) (s : Gpio) :
    (isReadyBody inp k s).2.2 =
      inp k &&& (LCD_READY_BIT <<< LCD_STM32_NIBBLE_SHIFT) := rfl

/-- Each loop body samples the input port exactly once. -/
lemma isReadyBody_sampleCount (inp : Nat → Nat) (k : Nat) (s : Gpio) :
    sampleCount (isReadyBody inp k s).2.1 = 1 := by
  unfold isReadyBody sampleCount
  by_cases h : inp k &&& (LCD_READY_BIT <<< LCD_STM32_NIBBLE_SHIFT) = 0 <;>
    simp [h, isSampleEv]

/-- If the masked busy value is nonzero for the first `t` samples, the
loop runs its full fuel of `t` iterations. -/
lemma isReadyLoop_count_busy (inp : Nat → Nat) :
    ∀ (t k : Nat) (s : Gpio), 0 < t →
      (∀ j, j < t → inp (k + j) &&& (LCD_READY_BIT <<< LCD_STM32_NIBBLE_SHIFT) ≠ 0) →
      sampleCount (isReadyLoop inp s k t).2 = t := by
  intro t
  induction t with
  | zero => intro k s h; exact absurd h (lt_irrefl 0)
  | succ t ih =>
    intro k s _ hbusy
    have hv : (isReadyBody inp k s).2.2 ≠ 0 := by
      rw [isReadyBody_value]
      simpa using hbusy 0 (Nat.succ_pos t)
    by_cases ht : 0 < t
    · have hcond : (isReadyBody inp k s).2.2 ≠ 0 ∧ 0 < t := ⟨hv, ht⟩
      have heq : (isReadyLoop inp s k (t + 1)).2 =
          (isReadyBody inp k s).2.1 ++
            (isReadyLoop inp (isReadyBody inp k s).1 (k + 1) t).2 := by
        simp only [isReadyLoop, if_pos hcond]
      rw [heq]
      have hrec := ih (k + 1) (isReadyBody inp k s).1 ht (fun j hj => by
        have h2 := hbusy (j + 1) (by omega)
        have h3 : k + (j + 1) = k + 1 + j := by omega
        rwa [h3] at h2)
      simp only [sampleCount, List.countP_append] at *
      rw [isReadyBody_sampleCount inp k s |>.symm] at *
      simp only [sampleCount] at *
      omega
    · have ht0 : t = 0 := by omega
      subst ht0
      have heq : (isReadyLoop inp s k 1).2 = (isReadyBody inp k s).2.1 := by
        simp only [isReadyLoop]
        rw [if_neg (by simp)]
      rw [heq, isReadyBody_sampleCount]

/-- If the first `n` samples are busy and sample `n` is clear (n < fuel),
the loop exits after exactly `n + 1` iterations. -/
lemma isReadyLoop_count_clear (inp : Nat → Nat) :
    ∀ (n t k : Nat) (s : Gpio), n < t →
      (∀ j, j < n → inp (k + j) &&& (LCD_READY_BIT <<< LCD_STM32_NIBBLE_SHIFT) ≠ 0) →
      inp (k + n) &&& (LCD_READY_BIT <<< LCD_STM32_NIBBLE_SHIFT) = 0 →
      sampleCount (isReadyLoop inp s k t).2 = n + 1 := by
  intro n
  induction n with
  | zero =>
    intro t k s hnt _ hclear
    obtain ⟨t', rfl⟩ : ∃ t', t = t' + 1 := ⟨t - 1, by omega⟩
    have hv : (isReadyBody inp k s).2.2 = 0 := by
      rw [isReadyBody_value]
      simpa using hclear
    have heq : (isReadyLoop inp s k (t' + 1)).2 = (isReadyBody inp k s).2.1 := by
      simp only [isReadyLoop]
      rw [if_neg (by simp [hv])]
    rw [heq, isReadyBody_sampleCount]
  | succ m ih =>
    intro t k s hnt hbusy hclear
    obtain ⟨t', rfl⟩ : ∃ t', t = t' + 1 := ⟨t - 1, by omega⟩
    have hv : (isReadyBody inp k s).2.2 ≠ 0 := by
      rw [isReadyBody_value]
      simpa using hbusy 0 (Nat.succ_pos m)
    have ht' : 0 < t' := by omega
    have hcond : (isReadyBody inp k s).2.2 ≠ 0 ∧ 0 < t' := ⟨hv, ht'⟩
    have heq : (isReadyLoop inp s k (t' + 1)).2 =
        (isReadyBody inp k s).2.1 ++
          (isReadyLoop inp (isReadyBody inp k s).1 (k + 1) t').2 := by
      simp only [isReadyLoop, if_pos hcond]
    rw [heq]
    have hrec := ih t' (k + 1) (isReadyBody inp k s).1 (by omega)
      (fun j hj => by
        have h2 := hbusy (j + 1) (by omega)
        have h3 : k + (j + 1) = k + 1 + j := by omega
        rwa [h3] at h2)
      (by
        have h3 : k + (m + 1) = k + 1 + m := by omega
        rwa [h3] at hclear)
    simp only [sampleCount, List.countP_append] at *
    rw [isReadyBody_sampleCount inp k s |>.symm] at *
    simp only [sampleCount] at *
    omega

/-- The sample count of the whole LCD_IsReady trace is that of its loop:
the entry and exit sequences contain no input-port sample. -/
lemma lcd_isReady_sampleCount_eq (inp : Nat → Nat) (s : Gpio) :
    sampleCount (LCD_IsReady inp s).2 =
      sampleCount (isReadyLoop inp
        { s with port := s.port &&& not16 LCD_STM32_NIBBLE_MASK,
                 db4Out := false, db5Out := false, db6Out := false, db7Out := false,
                 rs := false, rw := true } 0 LCD_READY_DELAY).2 := by
  simp [LCD_IsReady, sampleCount, List.countP_append, isSampleEv]

/-- C1: LCD_IsReady terminates for every busy-flag behaviour: the attempt
budget LCD_READY_DELAY equals (0x651 * 4) / 0x10 = 404; if the first clear
busy-bit reading is at 0-based sample index n < 404 the loop performs
exactly n + 1 poll iterations, and if the busy bit stays set throughout
the budget it performs exactly 404 iterations and returns normally. -/
theorem lcd_isReady_poll_count (inp : Nat → Nat) (s : Gpio) :
    LCD_READY_DELAY = 404 ∧
    (∀ n, n < LCD_READY_DELAY →
      (∀ k, k < n → inp k &&& (LCD_READY_BIT <<< LCD_STM32_NIBBLE_SHIFT) ≠ 0) →
      inp n &&& (LCD_READY_BIT <<< LCD_STM32_NIBBLE_SHIFT) = 0 →
      sampleCount (LCD_IsReady inp s).2 = n + 1) ∧
    ((∀ k, k < LCD_READY_DELAY → inp k &&& (LCD_READY_BIT <<< LCD_STM32_NIBBLE_SHIFT) ≠ 0) →
      sampleCount (LCD_IsReady inp s).2 = LCD_READY_DELAY) := by
  refine ⟨rfl, ?_, ?_⟩
  · intro n hn hbusy hclear
    rw [lcd_isReady_sampleCount_eq]
    exact isReadyLoop_count_clear inp n LCD_READY_DELAY 0 _ hn
      (fun j hj => by simpa using hbusy j hj) (by simpa using hclear)
  · intro hbusy
    rw [lcd_isReady_sampleCount_eq]
    exact isReadyLoop_count_busy inp LCD_READY_DELAY 0 _ (by decide)
      (fun j hj => by simpa using hbusy j hj)

/-- C1 witness: with a busy flag that clears on the second sample the poll
runs exactly 2 iterations, and with an always-busy flag exactly 404. -/
theorem lcd_isReady_poll_count_witness :
    sampleCount (LCD_IsReady (fun k => if k = 0 then 8 else 0)
      (Gpio.mk 0 false false false true true true true false)).2 = 1 + 1 ∧
    sampleCount (LCD_IsReady (fun _ => 8)
      (Gpio.mk 0 false false false true true true true false)).2 = LCD_READY_DELAY := by
  constructor
  · exact (lcd_isReady_poll_count (fun k => if k = 0 then 8 else 0)
      (Gpio.mk 0 false false false true true true true false)).2.1 1 (by decide)
      (fun k hk => by interval_cases k <;> decide) (by decide)
  · exact (lcd_isReady_poll_count (fun _ => 8)
      (Gpio.mk 0 false false false true true true true false)).2.2
      (fun k _ => by decide)

/-- A concrete reset GPIO state used for evaluating the driver. -/
def gInit : Gpio := Gpio.mk 0 false false false true true true true false

/-- Busy-flag oracle that reads busy on the first sample and clear on
every later sample. -/
def busyOnceInp : Nat → Nat :=
  fun k => if k = 0 then LCD_READY_BIT <<< LCD_STM32_NIBBLE_SHIFT else 0

/-- Busy-flag oracle that always reads busy. -/
def alwaysBusyInp : Nat → Nat := fun _ => LCD_READY_BIT <<< LCD_STM32_NIBBLE_SHIFT

set_option maxRecDepth 100000 in
/-- C3: the codes 10 µs delay fires when the sampled busy bit is CLEAR,
not when it is set.  With a busy-then-clear oracle the poll runs two
iterations, no 10 µs delay occurs between the two samples (where the
claimed retry delay would sit), and the single 10 µs delay occurs after
the final clear sample; with an always-busy oracle no 10 µs delay occurs
at all, although the claim requires one before every retry. -/
theorem lcd_isReady_retry_delay_bug :
    sampleCount (LCD_IsReady busyOnceInp gInit).2 = 2 ∧
    (betweenSamples (LCD_IsReady busyOnceInp gInit).2).count (Ev.dUs 10) = 0 ∧
    (afterLastSample (LCD_IsReady busyOnceInp gInit).2).count (Ev.dUs 10) = 1 ∧
    ((LCD_IsReady alwaysBusyInp gInit).2).count (Ev.dUs 10) = 0 :=
  ⟨by decide, by decide, by decide, by decide⟩

/-- C6 counterexample: the initialization sequence issues SEVEN command
bytes — LCD_DISPLAY_ON_CURSOR_OFF (0x0C) is issued between clear-display
and reset-cursor — not the six bytes (four configuration bytes, clear,
reset cursor) stated by the claim. -/
theorem lcd_init_cmd_bytes_cex :
    cmdBytes (LCD_Init (fun _ => 0) gInit).2 =
      [LCD_CURSOR_AUTO_INCR_ON, LCD_DISPLAY_CURSOR_ON, LCD_DISPLAY_2_LINES_5x10,
        LCD_DISPLAY_CURSOR_OFF, LCD_CLEAR_DISPLAY, LCD_DISPLAY_ON_CURSOR_OFF,
        LCD_RESET_CURSOR_POSITION] ∧
    cmdBytes (LCD_Init (fun _ => 0) gInit).2 ≠
      [LCD_CURSOR_AUTO_INCR_ON, LCD_DISPLAY_CURSOR_ON, LCD_DISPLAY_2_LINES_5x10,
        LCD_DISPLAY_CURSOR_OFF, LCD_CLEAR_DISPLAY, LCD_RESET_CURSOR_POSITION] :=
  ⟨by decide, by decide⟩

/-- C6 amended: LCD_Init issues three 8-bit-mode nibbles (0x03) then one
4-bit-mode nibble (0x02) with delays 40/5/15/1/5 ms, then exactly seven
command bytes — auto-increment on (0x06), display+cursor on (0x0E),
2-line/5x10 font (0x2C), display+cursor off (0x08), clear display (0x01),
display on cursor off (0x0C), reset cursor (0x03) — then a 5 ms delay. -/
theorem lcd_init_sequence_amended (inp : Nat → Nat) (s : Gpio) :
    (LCD_Init inp s).2 =
      [Call.dMsC 40, Call.ctrlNibC 0x03, Call.dMsC 5, Call.ctrlNibC 0x03,
        Call.dMsC 15, Call.ctrlNibC 0x03, Call.dMsC 1, Call.ctrlNibC 0x02,
        Call.dMsC 5,
        Call.isReadyC, Call.ctrlNibC 0x0, Call.ctrlNibC 0x6,
        Call.isReadyC, Call.ctrlNibC 0x0, Call.ctrlNibC 0xE,
        Call.isReadyC, Call.ctrlNibC 0x2, Call.ctrlNibC 0xC,
        Call.isReadyC, Call.ctrlNibC 0x0, Call.ctrlNibC 0x8,
        Call.isReadyC, Call.ctrlNibC 0x0, Call.ctrlNibC 0x1,
        Call.isReadyC, Call.ctrlNibC 0x0, Call.ctrlNibC 0xC,
        Call.isReadyC, Call.ctrlNibC 0x0, Call.ctrlNibC 0x3,
        Call.dMsC 5] := rfl

/-- The call trace of LCD_Enable: display-on command, nibbles 0 then 12. -/
lemma lcd_enable_calls (inp : Nat → Nat) (y : Sys) :
    (LCD_Enable inp y).2 = [Call.isReadyC, Call.ctrlNibC 0, Call.ctrlNibC 12] := rfl

/-- LCD_initVar after a LCD_Start call. -/
lemma lcd_start_initVar (inp : Nat → Nat) (y : Sys) :
    (LCD_Start inp y).1.initVar = if y.initVar = 0 then 1 else y.initVar := by
  by_cases h : y.initVar = 0 <;> simp [LCD_Start, LCD_Enable, h]

/-- A LCD_Start call on a state already marked initialized only enables. -/
lemma lcd_start_calls_of_ne (inp : Nat → Nat) (z : Sys) (h : z.initVar ≠ 0) :
    (LCD_Start inp z).2 = [Call.isReadyC, Call.ctrlNibC 0, Call.ctrlNibC 12] := by
  unfold LCD_Start
  rw [if_neg h]
  exact lcd_enable_calls inp z

/-- C9: every LCD_Start call leaves LCD_enableState = 1 and (from the
power-up values 0 or 1 of LCD_initVar) LCD_initVar = 1.  The LCD_Init
sequence runs exactly when LCD_initVar = 0 — i.e. in the first call only —
every call ends by issuing the display-on command byte through LCD_Enable,
and any call made after a LCD_Start call never re-runs LCD_Init. -/
theorem lcd_start_init_once (inp : Nat → Nat) (y : Sys) :
    ((LCD_Start inp y).1.enableState = 1) ∧
    (y.initVar = 0 ∨ y.initVar = 1 → (LCD_Start inp y).1.initVar = 1) ∧
    (y.initVar = 0 →
      (LCD_Start inp y).2 =
        (LCD_Init inp y.gpio).2 ++ [Call.isReadyC, Call.ctrlNibC 0, Call.ctrlNibC 12]) ∧
    (y.initVar ≠ 0 →
      (LCD_Start inp y).2 = [Call.isReadyC, Call.ctrlNibC 0, Call.ctrlNibC 12]) ∧
    ((LCD_Start inp (LCD_Start inp y).1).2 =
      [Call.isReadyC, Call.ctrlNibC 0, Call.ctrlNibC 12]) ∧
    cmdBytes [Call.isReadyC, Call.ctrlNibC 0, Call.ctrlNibC 12] =
      [LCD_DISPLAY_ON_CURSOR_OFF] := by
  refine ⟨?_, ?_, ?_, ?_, ?_, by decide⟩
  · by_cases h : y.initVar = 0 <;> simp [LCD_Start, LCD_Enable, h]
  · intro hcases
    rw [lcd_start_initVar]
    rcases hcases with h | h <;> simp [h]
  · intro h
    unfold LCD_Start
    rw [if_pos h]
    rfl
  · intro h
    exact lcd_start_calls_of_ne inp y h
  · apply lcd_start_calls_of_ne
    rw [lcd_start_initVar]
    by_cases h : y.initVar = 0 <;> simp [h]

/-- C9 witness: from the power-up state (LCD_initVar = 0) a first call
runs the init sequence and a second call does not. -/
theorem lcd_start_init_once_witness :
    ((Sys.mk gInit 0 0).initVar = 0 ∨ (Sys.mk gInit 0 0).initVar = 1) ∧
    (LCD_Start (fun _ => 0) (Sys.mk gInit 0 0)).1.initVar = 1 ∧
    (LCD_Start (fun _ => 0) (LCD_Start (fun _ => 0) (Sys.mk gInit 0 0)).1).2 =
      [Call.isReadyC, Call.ctrlNibC 0, Call.ctrlNibC 12] :=
  ⟨Or.inl rfl,
    (lcd_start_init_once (fun _ => 0) (Sys.mk gInit 0 0)).2.1 (Or.inl rfl),
    (lcd_start_init_once (fun _ => 0) (Sys.mk gInit 0 0)).2.2.2.2.1⟩

/-- Observation: is a pin-level event an Enable assertion? -/
def isSetEEv : Ev → Bool
  | Ev.setE => true
  | _ => false

/-- Observation: is a pin-level event an Enable de-assertion? -/
def isClearEEv : Ev → Bool
  | Ev.clearE => true
  | _ => false

/-- Each polling-loop body asserts Enable twice and de-asserts it twice. -/
lemma isReadyBody_strobes (inp : Nat → Nat) (k : Nat) (s : Gpio) :
    (isReadyBody inp k s).2.1.countP isSetEEv = 2 ∧
    (isReadyBody inp k s).2.1.countP isClearEEv = 2 := by
  unfold isReadyBody
  by_cases h : inp k &&& (LCD_READY_BIT <<< LCD_STM32_NIBBLE_SHIFT) = 0 <;>
    simp [h, isSetEEv, isClearEEv]

/-- The polling loop asserts and de-asserts Enable equally often. -/
lemma isReadyLoop_strobes (inp : Nat → Nat) :
    ∀ (t k : Nat) (s : Gpio),
      (isReadyLoop inp s k t).2.countP isSetEEv =
        (isReadyLoop inp s k t).2.countP isClearEEv := by
  intro t
  induction t with
  | zero => intro k s; rfl
  | succ t ih =>
    intro k s
    by_cases hcond : (isReadyBody inp k s).2.2 ≠ 0 ∧ 0 < t
    · simp only [isReadyLoop, if_pos hcond, List.countP_append]
      rw [(isReadyBody_strobes inp k s).1, (isReadyBody_strobes inp k s).2,
        ih (k + 1) (isReadyBody inp k s).1]
    · simp only [isReadyLoop, if_neg hcond]
      rw [(isReadyBody_strobes inp k s).1, (isReadyBody_strobes inp k s).2]

/-- The loop body leaves Enable low. -/
lemma isReadyBody_e (inp : Nat → Nat) (k : Nat) (s : Gpio) :
    (isReadyBody inp k s).1.e = false := rfl

/-- The polling loop leaves Enable low whenever it runs at least once. -/
lemma isReadyLoop_e (inp : Nat → Nat) :
    ∀ (t k : Nat) (s : Gpio), 0 < t → (isReadyLoop inp s k t).1.e = false := by
  intro t
  induction t with
  | zero => intro k s h; exact absurd h (lt_irrefl 0)
  | succ t ih =>
    intro k s _
    by_cases hcond : (isReadyBody inp k s).2.2 ≠ 0 ∧ 0 < t
    · simp only [isReadyLoop, if_pos hcond]
      exact ih (k + 1) (isReadyBody inp k s).1 hcond.2
    · simp only [isReadyLoop, if_neg hcond]
      exact isReadyBody_e inp k s

/-- LCD_IsReady returns with Enable low. -/
lemma lcd_isReady_e (inp : Nat → Nat) (s : Gpio) :
    (LCD_IsReady inp s).1.e = false := by
  show (isReadyLoop inp
    { s with port := s.port &&& not16 LCD_STM32_NIBBLE_MASK,
             db4Out := false, db5Out := false, db6Out := false, db7Out := false,
             rs := false, rw := true } 0 LCD_READY_DELAY).1.e = false
  exact isReadyLoop_e inp LCD_READY_DELAY 0 _ (by decide)

/-- LCD_IsReady asserts and de-asserts Enable equally often. -/
lemma lcd_isReady_strobes (inp : Nat → Nat) (s : Gpio) :
    (LCD_IsReady inp s).2.countP isSetEEv =
      (LCD_IsReady inp s).2.countP isClearEEv := by
  simp only [LCD_IsReady, List.countP_append, List.countP_cons, List.countP_nil]
  simp [isSetEEv, isClearEEv, isReadyLoop_strobes inp LCD_READY_DELAY 0]

/-- C10: every bus operation returns with the Enable strobe low — the two
nibble writers and LCD_IsReady end in the de-asserted state and assert and
de-assert Enable equally often in their traces; consequently
LCD_WriteData, LCD_WriteControl, LCD_Init and every command-issuing
LCD_Position call also return with Enable low, and a no-op LCD_Position
call leaves the state (hence the strobe) untouched. -/
theorem lcd_enable_strobe_low (inp : Nat → Nat) (s : Gpio)
    (nib b row column : Nat) :
    ((LCD_WrDatNib s nib).1.e = false) ∧
    ((LCD_WrCntrlNib s nib).1.e = false) ∧
    ((LCD_IsReady inp s).1.e = false) ∧
    ((LCD_WrDatNib s nib).2.countP isSetEEv =
      (LCD_WrDatNib s nib).2.countP isClearEEv) ∧
    ((LCD_WrCntrlNib s nib).2.countP isSetEEv =
      (LCD_WrCntrlNib s nib).2.countP isClearEEv) ∧
    ((LCD_IsReady inp s).2.countP isSetEEv =
      (LCD_IsReady inp s).2.countP isClearEEv) ∧
    ((LCD_WriteData inp s b).1.e = false) ∧
    ((LCD_WriteControl inp s b).1.e = false) ∧
    ((LCD_Init inp s).1.e = false) ∧
    (row < 4 → (LCD_Position inp s row column).1.e = false) ∧
    (4 ≤ row → (LCD_Position inp s row column).1 = s) := by
  refine ⟨rfl, rfl, lcd_isReady_e inp s, rfl, rfl, lcd_isReady_strobes inp s,
    rfl, rfl, rfl, ?_, ?_⟩
  · intro h
    interval_cases row <;> rfl
  · intro h
    match row, h with
    | n + 4, _ => rfl

/-- C10 witness: the theorem instantiated at a concrete state, nibble,
byte, row and column. -/
theorem lcd_enable_strobe_low_witness :
    (1 : Nat) < 4 ∧
    (LCD_Position (fun _ => 0) gInit 1 7).1.e = false ∧
    (4 : Nat) ≤ 9 ∧
    (LCD_Position (fun _ => 0) gInit 9 7).1 = gInit :=
  ⟨by decide,
    (lcd_enable_strobe_low (fun _ => 0) gInit 5 0xAB 1 7).2.2.2.2.2.2.2.2.2.1 (by decide),
    by decide,
    (lcd_enable_strobe_low (fun _ => 0) gInit 5 0xAB 9 7).2.2.2.2.2.2.2.2.2.2 (by decide)⟩
